import Mathlib

/-
  Formal model of the tesla-tracker core, shallowly embedded from the Python
  source (src/inventory.py, src/option_codes.py, src/main.py).

  Conventions:
  - Python dicts with a known field set become structures; a field that may be
    absent becomes an `Option`.
  - Python dict lookup / `in` tests become the executable `slookup`,
    `strListContains`, `seenContains` functions below (first-match semantics,
    decidable string equality).
  - JSON numbers relevant to the claims (prices, timestamps) are modelled as
    `Int`; Python truthiness of an integer is `≠ 0`, of a list is `≠ []`,
    of an `Option` is `isSome` (with `some 0` still falsy for ints, which the
    model spells out explicitly where the source relies on it).
  - Network effects are modelled by passing the outcome of each upstream call
    as an explicit parameter.
-/

namespace TeslaTracker

/-- First-match association-list lookup: Python `dict[key]` / `dict.get(key)`. -/
def slookup {α : Type} : List (String × α) → String → Option α
  | [], _ => none
  | (k, v) :: rest, key => if k = key then some v else slookup rest key

/-- Python `x in list_of_strings`. -/
def strListContains : List String → String → Bool
  | [], _ => false
  | x :: rest, v => if x = v then true else strListContains rest v

/-- Python `x in set_of_vins` where a VIN may be `None`. -/
def seenContains : List (Option String) → Option String → Bool
  | [], _ => false
  | x :: rest, v => if x = v then true else seenContains rest v

/-! ## Inventory data model (src/inventory.py) -/

/-- An inventory result entry (`car` dict), restricted to the fields the core
reads: `OnTheRoadPrice`, `Price`, `OptionCodeMap` (only its key set matters),
`OptionCodeList`, `VIN`. -/
structure Car where
  onTheRoadPrice : Option Int := none
  price : Option Int := none
  optionCodeMap : List String := []
  optionCodeList : List String := []
  vin : Option String := none
  deriving Repr, DecidableEq

/-- A watch / criteria dict: `market`, `model`, `condition`, `trim`, `price`
(max price ceiling), `options` (required option codes), `seen_vins`
(dedup ledger; entries may be `None` because `car.get('VIN')` is added
unconditionally). Absent keys are `none` / `[]`, matching `criteria.get`. -/
structure Criteria where
  market : Option String := none
  model : Option String := none
  condition : Option String := none
  trim : Option String := none
  price : Option Int := none
  options : List String := []
  seen_vins : List (Option String) := []
  deriving Repr, DecidableEq

/-- `price = car.get('OnTheRoadPrice', car.get('Price', 999999))`
(src/inventory.py line 124). -/
def carPrice (car : Car) : Int :=
  match car.onTheRoadPrice with
  | some p => p
  | none =>
    match car.price with
    | some p => p
    | none => 999999

/-- `car_options = car.get('OptionCodeMap', {}).keys()`; falls back to
`car.get('OptionCodeList', [])` when that key set is falsy (empty)
(src/inventory.py lines 129-132). -/
def carOptions (car : Car) : List String :=
  if car.optionCodeMap = [] then car.optionCodeList else car.optionCodeMap

/-- The price gate of `find_matches`: `if max_price and price > max_price:
continue` (src/inventory.py line 125). `max_price` is truthy when present and
nonzero. The candidate passes when it is NOT skipped. -/
def priceOk (maxPrice : Option Int) (price : Int) : Bool :=
  match maxPrice with
  | none => true
  | some mp => !(mp != 0 && price > mp)

/-- The option gate of `find_matches`: when `required_options` is truthy
(non-empty), require that ALL required codes are present
(`all(opt in car_options for opt in required_options)`,
src/inventory.py lines 134-137). -/
def optionsOk (required : List String) (carOpts : List String) : Bool :=
  if required = [] then true
  else required.all (fun opt => strListContains carOpts opt)

/-- `InventoryManager.find_matches(results, criteria)` (src/inventory.py
lines 114-141): keep each car that is skipped by neither gate. -/
def find_matches (results : List Car) (criteria : Criteria) : List Car :=
  results.filter (fun car =>
    priceOk criteria.price (carPrice car) && optionsOk criteria.options (carOptions car))

/-! ## Seen-VIN dedup pipeline (src/main.py lines 862-888 `inventory_job`,
also lines 701-719 `inv_check_command`) -/

/-- `seen_vins.add(car.get('VIN'))`: set insertion, `None` allowed. -/
def addSeen (seen : List (Option String)) (v : Option String) : List (Option String) :=
  if seenContains seen v then seen else seen ++ [v]

/-- `new_matches = [m for m in matches if m.get('VIN') not in seen_vins]`
(src/main.py line 875). -/
def newMatches (seen : List (Option String)) (results : List Car) (criteria : Criteria) :
    List Car :=
  (find_matches results criteria).filter (fun m => !(seenContains seen m.vin))

/-- The seen set after the notification loop added `car.get('VIN')` for every
notified car (src/main.py line 881). -/
def updatedSeen (seen : List (Option String)) (results : List Car) (criteria : Criteria) :
    List (Option String) :=
  (newMatches seen results criteria).foldl (fun s c => addSeen s c.vin) seen

/-- One per-watch match-and-dedup step: filter matches against the seen set,
then add every notified VIN (possibly `None`) to the seen set. Returns
(new matches notified this cycle, updated seen set). -/
def invPipeline (seen : List (Option String)) (results : List Car) (criteria : Criteria) :
    List Car × List (Option String) :=
  (newMatches seen results criteria, updatedSeen seen results criteria)

/-! ## Option code family table (src/option_codes.py) -/

/-- `OPTION_CODES_DATA`: Model -> Category -> Code: Name. -/
def OPTION_CODES_DATA : List (String × List (String × List (String × String))) :=
  [("my",
    [("Autopilot", [("$APBS", "Piloto automático")]),
     ("Interior",
      [("$IBB3", "Interior totalmente en negro"),
       ("$IPB6", "Interior totalmente en negro Premium"),
       ("$IPB7", "Interior totalmente en negro Premium"),
       ("$IPB8", "Interior totalmente en negro Premium"),
       ("$IPW7", "Interior en blanco y negro Premium"),
       ("$IPW8", "Interior en blanco y negro Premium"),
       ("$STY5B", "Interior de cinco asientos"),
       ("$STY5S", "Interior de cinco asientos")]),
     ("Other",
      [("$CPF0", "Conectividad estándar"),
       ("$CPF1", "Conectividad premium"),
       ("$FM3U", "Mejora de aceleración"),
       ("$MDLY", "Model Y"),
       ("$MTY41", "Gran autonomía con tracción integral"),
       ("$MTY47", "Gran autonomía con tracción integral"),
       ("$MTY52", "Gran autonomía con tracción trasera"),
       ("$MTY62", "Gran autonomía con tracción integral"),
       ("$MTY66", "Model Y Gran autonomía con tracción trasera"),
       ("$MTY68", "Standard con tracción trasera"),
       ("$SC04", "Acceso a la red de Supercargador + pago en marcha"),
       ("$TW01", "Bola de remolque")]),
     ("Paint",
      [("$PBSB", "Negro Sólido"),
       ("$PN00", "Plateado Mercurio"),
       ("$PN01", "Gris Sigilo"),
       ("$PPSW", "Blanco Perla Multicapas"),
       ("$PR01", "Ultra Rojo"),
       ("$PX02", "Negro diamante")]),
     ("Wheels",
      [("$WY18P", "Llantas Aperture de 18\""),
       ("$WY19P", "Llantas Crossflow de 19\""),
       ("$WY20A", "Llantas Helix 2.0 de 20\"")])]),
   ("m3",
    [("Autopilot", [("$APBS", "Piloto automático")]),
     ("Interior",
      [("$IPB2", "Negro"),
       ("$IPB3", "Negro"),
       ("$IPW3", "Negro y blanco")]),
     ("Other",
      [("$CPF0", "Conectividad estándar"),
       ("$CPF1", "Conectividad premium"),
       ("$MDL3", "Model 3"),
       ("$MT352", "Gran autonomía con tracción integral"),
       ("$MT356", "Gran autonomía con tracción trasera"),
       ("$MT362", "Model 3 Gran autonomía con tracción trasera"),
       ("$MT369", "Model 3 Gran autonomía con tracción trasera"),
       ("$SC04", "Acceso a la red de Supercargador + pago en marcha"),
       ("$TW01", "Bola de remolque")]),
     ("Paint",
      [("$PN00", "Plateado Mercurio"),
       ("$PN01", "Gris Sigilo"),
       ("$PPSB", "Azul Oscuro Metalizado"),
       ("$PPSW", "Blanco Perla Multicapas"),
       ("$PR01", "Ultra Rojo"),
       ("$PX02", "Negro diamante")]),
     ("Wheels",
      [("$W38A", "Llantas Photon de 18\""),
       ("$W39S", "Llantas Nova de 19\"")])]),
   ("ms",
    [("Autopilot", [("$APBS", "Piloto automático")]),
     ("Other",
      [("$CPF2", "Conectividad premium gratis"),
       ("$IBE00", "Interior negro premium con decoración de ébano"),
       ("$IBE01", "Interior negro premium con decoración de ébano"),
       ("$ICW01", "Interior en crema premium con decoración de madera de roble"),
       ("$IWW00", "Interior blanco y negro premium con decoración en nogal"),
       ("$MDLS", "Model S"),
       ("$MTS18", "Tracción a las cuatro ruedas"),
       ("$MTS22", "Model S Tracción a las cuatro ruedas"),
       ("$SC05", "Carga gratuita en Supercharger"),
       ("$ST06", "Volante"),
       ("$TW01", "Capacidad de remolque")]),
     ("Paint",
      [("$PN01", "Gris Sigilo"),
       ("$PN02", "Plateado Lunar"),
       ("$PPSW", "Blanco Perla Multicapas"),
       ("$PR01", "Ultra Rojo"),
       ("$PX02", "Negro diamante")]),
     ("Wheels",
      [("$WS10", "Llantas Arachnid de 21\""),
       ("$WS13", "Llantas Velarium de 21\""),
       ("$WS90", "Llantas Tempest de 19\"")])]),
   ("mx",
    [("Autopilot", [("$APBS", "Piloto automático")]),
     ("Interior",
      [("$CC01", "Interior de cinco asientos"),
       ("$CC02", "Interior de seis asientos"),
       ("$CC04", "Interior de siete asientos")]),
     ("Other",
      [("$CPF2", "Conectividad premium gratis"),
       ("$IBC00", "Interior totalmente en negro Premium con decoración de fibra de carbono"),
       ("$IBE00", "Interior negro premium con decoración de ébano"),
       ("$IBE01", "Interior negro premium con decoración de ébano"),
       ("$ICW00", "Interior en crema premium con decoración de madera de roble"),
       ("$ICW01", "Interior en crema premium con decoración de madera de roble"),
       ("$IWC00", "Interior en negro y blanco Premium con decoración de fibra de carbono"),
       ("$IWW00", "Interior blanco y negro premium con decoración en nogal"),
       ("$IWW01", "Interior blanco y negro premium con decoración en nogal"),
       ("$MDLX", "Model X"),
       ("$MTX13", "Tracción a las cuatro ruedas"),
       ("$MTX15", "Tracción a las cuatro ruedas"),
       ("$MTX18", "Tracción a las cuatro ruedas"),
       ("$MTX19", "Plaid"),
       ("$MTX22", "Model X Tracción a las cuatro ruedas"),
       ("$SC05", "Carga gratuita en Supercharger"),
       ("$ST06", "Volante"),
       ("$ST0Y", "Volante Yoke"),
       ("$TW01", "Paquete de remolque")]),
     ("Paint",
      [("$PBSB", "Negro Sólido"),
       ("$PN01", "Gris Sigilo"),
       ("$PN02", "Plateado Lunar"),
       ("$PPSW", "Blanco Perla Multicapas"),
       ("$PR01", "Ultra Rojo"),
       ("$PX02", "Negro diamante")]),
     ("Wheels",
      [("$WX00", "Llantas Cyberstream de 20\""),
       ("$WX01", "Llantas Cyberstream de 20\""),
       ("$WX02", "Llantas Perihelix de 20\""),
       ("$WX20", "Llantas Turbine de 22\""),
       ("$WX21", "Llantas Turbine de 22\""),
       ("$WX22", "Llantas Machina de 22\"")])])]

/-- Modelled from the spec (§4.4): family membership of an option code,
resolved by looking the code up in the per-model category table. Returns the
category name, or `none` for unknown codes. -/
def familyOf (model : String) (code : String) : Option String :=
  match slookup OPTION_CODES_DATA model with
  | none => none
  | some cats =>
    cats.findSome? (fun cat => if (slookup cat.2 code).isSome then some cat.1 else none)

/-- Modelled from the spec (§4.4): grouped option semantics — within a family
the required codes are an OR, across families an AND; an unknown code is its
own singleton family (degrades to a literal requirement on that code). -/
def specGroupedOptionsOk (model : String) (required : List String) (carOpts : List String) : Bool :=
  required.all (fun opt =>
    match familyOf model opt with
    | none => strListContains carOpts opt
    | some fam =>
      required.any (fun o2 =>
        if familyOf model o2 = some fam then strListContains carOpts o2 else false))

/-- Modelled from the spec (§4.4): the matcher with the grouped option gate in
place of the literal all-codes gate; the price gate is as in the source. -/
def spec_find_matches (results : List Car) (criteria : Criteria) : List Car :=
  results.filter (fun car =>
    priceOk criteria.price (carPrice car) &&
      specGroupedOptionsOk (criteria.model.getD "my") criteria.options (carOptions car))

/-! ## Concrete fixtures -/

/-- `car_lr_1` from src/test_logic.py. -/
def car_lr_1 : Car :=
  { optionCodeList := ["$MTY41", "$PPSW", "$WY19P", "$CPF0"], vin := some "1" }

/-- `car_lr_2` from src/test_logic.py. -/
def car_lr_2 : Car :=
  { optionCodeList := ["$MTY47", "$PBSB", "$WY20A", "$CPF0"], vin := some "2" }

/-- `car_rwd` from src/test_logic.py. -/
def car_rwd : Car :=
  { optionCodeList := ["$MTY52", "$PPSW", "$WY19P", "$CPF0"], vin := some "3" }

/-- The Test 1 criteria from src/test_logic.py: options `[$MTY41, $MTY47]`. -/
def testOrCriteria : Criteria := { options := ["$MTY41", "$MTY47"] }

/-- A matched candidate with no `VIN` field and no price fields. -/
def carNV : Car := {}

/-- A watch with no price ceiling and no required options. -/
def watchNV : Criteria := {}

/-- A candidate whose only price information is `Price = 1`. -/
def carP1 : Car := { price := some 1, vin := some "P1" }

/-- A candidate carrying neither `OnTheRoadPrice` nor `Price`. -/
def carU : Car := { vin := some "U" }

/-- A watch whose ceiling is the (falsy) integer 0. -/
def watchZero : Criteria := { price := some 0 }

/-- A watch with a 50000 ceiling. -/
def watch50k : Criteria := { price := some 50000 }

/-! ## Response cache (src/inventory.py lines 10-112, `check_inventory`) -/

/-- One value of `self.cache`: a timestamp and the cached result list. -/
structure CacheEntry where
  timestamp : Int
  results : List Car
  deriving Repr, DecidableEq

/-- `self.cache`, keyed by the fingerprint string. Insertion prepends and
lookup takes the first match, so a new entry for a key shadows (overwrites)
the old one. -/
abbrev Cache := List (String × CacheEntry)

/-- `self.cache_ttl = 300` (src/inventory.py line 15). -/
def cache_ttl : Int := 300

/-- `cache_key = f"{market}_{model}_{condition}_{criteria.get('trim','all')}"`
(src/inventory.py line 34), with the `market`/`model`/`condition` defaults of
lines 21-23. -/
def cacheKey (c : Criteria) : String :=
  (c.market.getD "ES") ++ "_" ++ (c.model.getD "my") ++ "_" ++
    (c.condition.getD "new") ++ "_" ++ (c.trim.getD "all")

/-- Outcome of the upstream inventory fetch: a 200 response with a result
list, or a failure (any non-200 status, or a raised exception — both return
`[]` without touching the cache). -/
inductive FetchOutcome where
  | success (results : List Car)
  | failure
  deriving Repr, DecidableEq

/-- What one `check_inventory` call produces: the returned result list, the
cache afterwards, and whether an upstream fetch was issued. -/
structure InvCallResult where
  results : List Car
  cache : Cache
  didFetch : Bool
  deriving Repr, DecidableEq

/-- `InventoryManager.check_inventory` (src/inventory.py lines 17-112), with
the wall clock and the network outcome passed explicitly: serve a cache entry
younger than the TTL without fetching; otherwise fetch, cache on success,
return `[]` (cache untouched) on failure. -/
def check_inventory (cache : Cache) (now : Int) (fetch : FetchOutcome) (c : Criteria) :
    InvCallResult :=
  let key := cacheKey c
  let doFetch : InvCallResult :=
    match fetch with
    | .success rs => ⟨rs, (key, ⟨now, rs⟩) :: cache, true⟩
    | .failure => ⟨[], cache, true⟩
  match slookup cache key with
  | some entry =>
    if now - entry.timestamp < cache_ttl then ⟨entry.results, cache, false⟩ else doFetch
  | none => doFetch

/-! ## Authorized client (src/main.py lines 116-182, `TeslaClient`) -/

/-- The token pair returned by the token endpoint (`data['access_token']`,
`data['refresh_token']`). -/
structure TokenData where
  access_token : String
  refresh_token : String
  deriving Repr, DecidableEq

/-- The persisted per-subscriber record, restricted to the credential fields
`TeslaClient` reads and writes (`db.update_user` merges fields, so the
untouched fields are irrelevant here). -/
structure UserRec where
  access_token : Option String := none
  refresh_token : Option String := none
  deriving Repr, DecidableEq

/-- An upstream HTTP response: status code and (JSON) payload. -/
structure HttpResp where
  status : Nat
  body : String
  deriving Repr, DecidableEq

/-- The upstream world a `request` call runs against: the outcome of a
refresh-token exchange (`error s` = the token endpoint answered with HTTP
status `s` ≥ 400 and `raise_for_status` raised), and the resource endpoint's
response as a function of the bearer token presented. -/
structure ClientEnv where
  refreshResult : Except Nat TokenData
  respFor : String → HttpResp

/-- Client-visible state threaded through a `request` call: the stored user
record, plus instrumentation recording the bearer token of every request
issued to the resource URL and the number of token-endpoint exchanges. -/
structure ClientState where
  user : Option UserRec
  requestsMade : List String := []
  refreshCount : Nat := 0
  deriving Repr, DecidableEq

/-- Result of `TeslaClient.request`: the parsed payload, or the exception
raised (`notLoggedIn` = "User not logged in.", `authError` = "Auth Failed:
Token Expired and Refresh Failed. Please /login again.", `httpError s` = an
uncaught `HTTPStatusError` with status `s`). -/
inductive ReqResult where
  | ok (body : String)
  | notLoggedIn
  | authError
  | httpError (status : Nat)
  deriving Repr, DecidableEq

/-- `TeslaClient._refresh` (src/main.py lines 131-148): POST the refresh token
to the token endpoint; on success persist BOTH new tokens into the store
(merging into the existing user record) and return the new access token; on a
non-2xx answer `raise_for_status` raises with that status. The exchange
counter increments on every attempt. -/
def refreshTokens (env : ClientEnv) (st : ClientState) : Except Nat String × ClientState :=
  let st1 := { st with refreshCount := st.refreshCount + 1 }
  match env.refreshResult with
  | .error s => (.error s, st1)
  | .ok d =>
    let u := st1.user.getD {}
    (.ok d.access_token,
     { st1 with
        user := some { u with access_token := some d.access_token,
                              refresh_token := some d.refresh_token } })

/-- One GET to the resource URL with the given bearer token. -/
def issueGet (env : ClientEnv) (st : ClientState) (tok : String) : HttpResp × ClientState :=
  (env.respFor tok, { st with requestsMade := st.requestsMade ++ [tok] })

/-- `resp.raise_for_status()` followed by the `except httpx.HTTPStatusError`
clause of `request`: 2xx/3xx returns the payload, 401 becomes the auth error,
any other ≥ 400 status re-raises. -/
def finishResp (resp : HttpResp) : ReqResult :=
  if 400 ≤ resp.status then
    (if resp.status == 401 then .authError else .httpError resp.status)
  else .ok resp.body

/-- `TeslaClient.request` for a GET (src/main.py lines 150-173; every call
site uses GET): read the token pair (raising if there is no user or no
refresh token); refresh first if no access token is stored (this refresh sits
OUTSIDE the try block, so its failure propagates as a raw status error);
issue the GET; on a 401 do exactly one refresh exchange and retry exactly
once with the new token; then `raise_for_status` with the except clause
mapping a 401 to the terminal auth error. -/
def request (env : ClientEnv) (st : ClientState) : ReqResult × ClientState :=
  match st.user with
  | none => (.notLoggedIn, st)
  | some u =>
    match u.refresh_token with
    | none => (.notLoggedIn, st)
    | some _ =>
      let pre : Except Nat String × ClientState :=
        match u.access_token with
        | some t => (.ok t, st)
        | none => refreshTokens env st
      match pre with
      | (.error s, st1) => (.httpError s, st1)
      | (.ok tok, st1) =>
        let r1 := issueGet env st1 tok
        if r1.1.status == 401 then
          match refreshTokens env r1.2 with
          | (.error s, st3) =>
            if s == 401 then (.authError, st3) else (.httpError s, st3)
          | (.ok tok2, st3) =>
            let r2 := issueGet env st3 tok2
            (finishResp r2.1, r2.2)
        else (finishResp r1.1, r1.2)

/-! ## Order polling and diffing (src/main.py lines 900-940,
`check_orders_task`) -/

/-- An order summary as returned by the orders list endpoint, restricted to
the fields the diff reads: `referenceNumber` and `vin`. -/
structure OrderSummary where
  referenceNumber : String
  vin : Option String := none
  deriving Repr, DecidableEq

/-- The slice of an order-detail payload the diff reads:
`details['tasks']['scheduling'].get('deliveryWindowDisplay')`. -/
structure OrderDetails where
  deliveryWindowDisplay : Option String := none
  deriving Repr, DecidableEq

/-- One value of the persisted snapshot map:
`{'summary': order, 'details': details}`. -/
structure OrderEntry where
  summary : OrderSummary
  details : OrderDetails
  deriving Repr, DecidableEq

/-- `orders_state`: the snapshot map keyed by reference number. Insertion
prepends; `slookup` takes the first match, so rebuilding from `{}` matches
dict assignment. -/
abbrev SnapMap := List (String × OrderEntry)

/-- The per-order notify decision (src/main.py lines 920-927): notify when
the reference number is new, or the summary `vin` differs, or the detail
`deliveryWindowDisplay` differs. -/
def shouldNotify (prev : SnapMap) (order : OrderSummary) (details : OrderDetails) : Bool :=
  match slookup prev order.referenceNumber with
  | none => true
  | some old =>
    (old.summary.vin != order.vin) ||
      (old.details.deliveryWindowDisplay != details.deliveryWindowDisplay)

/-- The body of the `for order in orders` loop (src/main.py lines 913-934):
fetch the detail of each order in turn, building the new map and emitting
notifications as it goes. A failing detail fetch raises, carrying along the
notifications already sent (`error` case). -/
def ordersLoop (detailsFor : String → Except Unit OrderDetails) (prev : SnapMap) :
    List OrderSummary → SnapMap → List String → Except (List String) (SnapMap × List String)
  | [], curr, notifs => .ok (curr, notifs)
  | o :: rest, curr, notifs =>
    match detailsFor o.referenceNumber with
    | .error _ => .error notifs
    | .ok d =>
      let curr1 := (o.referenceNumber, ⟨o, d⟩) :: curr
      let notifs1 := if shouldNotify prev o d then notifs ++ [o.referenceNumber] else notifs
      ordersLoop detailsFor prev rest curr1 notifs1

/-- What one poll cycle leaves behind: the persisted snapshot (after the
cycle) and the reference numbers notified during the cycle. -/
structure OrdersCycleResult where
  persisted : SnapMap
  notified : List String
  deriving Repr, DecidableEq

/-- `check_orders_task` (src/main.py lines 900-940) with the network passed
explicitly: on success the freshly built map wholesale-replaces the old
snapshot (`db.update_user(..., {'orders_state': curr_map})`); any raised
exception is swallowed by the outer `except` and NOTHING is saved, leaving
the previous snapshot in place. -/
def check_orders_task (prev : SnapMap) (ordersResult : Except Unit (List OrderSummary))
    (detailsFor : String → Except Unit OrderDetails) : OrdersCycleResult :=
  match ordersResult with
  | .error _ => ⟨prev, []⟩
  | .ok orders =>
    match ordersLoop detailsFor prev orders [] [] with
    | .error notifs => ⟨prev, notifs⟩
    | .ok (curr, notifs) => ⟨curr, notifs⟩

/-- Extract the payload of a successful detail fetch (used only under the
hypothesis that the fetch succeeded). -/
def getDetails : Except Unit OrderDetails → OrderDetails
  | .ok d => d
  | .error _ => ⟨none⟩

/-- No entry of the cache can serve `key` at time `now`: either no entry
exists, or the entry's age has reached the TTL. -/
def noFreshEntry (cache : Cache) (key : String) (now : Int) : Prop :=
  ∀ e, slookup cache key = some e → cache_ttl ≤ now - e.timestamp

/-! ## Concrete fixtures for the client and order scenarios -/

/-- A world where the stored token `oldA` is rejected (401), the refresh
exchange succeeds with the pair (`newA`, `newR`), and `newA` is accepted. -/
def env0 : ClientEnv :=
  { refreshResult := .ok ⟨"newA", "newR"⟩,
    respFor := fun t => if t = "oldA" then ⟨401, "denied"⟩ else ⟨200, "payload"⟩ }

/-- A world where every bearer token is rejected (401) but the refresh
exchange still succeeds. -/
def env1 : ClientEnv :=
  { refreshResult := .ok ⟨"newA", "newR"⟩, respFor := fun _ => ⟨401, "denied"⟩ }

/-- A subscriber holding the stored pair (`oldA`, `oldR`). -/
def st0 : ClientState :=
  { user := some { access_token := some "oldA", refresh_token := some "oldR" } }

/-- A subscriber holding a refresh token but no access token. -/
def stNoAccess : ClientState :=
  { user := some { access_token := none, refresh_token := some "oldR" } }

/-- Order RN1 before VIN assignment. -/
def orderRN1 : OrderSummary := { referenceNumber := "RN1" }

/-- Order RN2. -/
def orderRN2 : OrderSummary := { referenceNumber := "RN2" }

/-- A detail fetch that always succeeds with an empty scheduling block. -/
def detAllOk : String → Except Unit OrderDetails := fun _ => .ok ⟨none⟩

/-- A detail fetch that fails exactly for RN2. -/
def detFailRN2 : String → Except Unit OrderDetails :=
  fun rn => if rn = "RN2" then .error () else .ok ⟨some "w"⟩

/-- A previous snapshot holding one order OLD. -/
def prevOld : SnapMap := [("OLD", ⟨⟨"OLD", none⟩, ⟨none⟩⟩)]

/-- A cache holding a fingerprint entry taken at time 0. -/
def cache0 : Cache := [(cacheKey watchNV, ⟨0, [carU]⟩)]

/-! # Helper lemmas -/

theorem seenContains_append (s t : List (Option String)) (v : Option String) :
    seenContains (s ++ t) v = (seenContains s v || seenContains t v) := by
  induction s with
  | nil => simp [seenContains]
  | cons x rest ih =>
    by_cases h : x = v
    · simp [seenContains, h]
    · simp [seenContains, h, ih]

theorem seenContains_addSeen_self (s : List (Option String)) (v : Option String) :
    seenContains (addSeen s v) v = true := by
  unfold addSeen
  by_cases h : seenContains s v = true
  · simp [h]
  · simp [h, seenContains_append, seenContains]

theorem seenContains_addSeen_mono (s : List (Option String)) (v w : Option String)
    (h : seenContains s w = true) : seenContains (addSeen s v) w = true := by
  unfold addSeen
  by_cases hc : seenContains s v = true
  · simp [hc, h]
  · simp [hc, seenContains_append, h]

theorem foldl_addSeen_mono (l : List Car) (s : List (Option String)) (w : Option String)
    (h : seenContains s w = true) :
    seenContains (l.foldl (fun acc c => addSeen acc c.vin) s) w = true := by
  induction l generalizing s with
  | nil => simpa using h
  | cons x rest ih => exact ih (addSeen s x.vin) (seenContains_addSeen_mono s x.vin w h)

theorem foldl_addSeen_mem (l : List Car) (s : List (Option String)) (m : Car)
    (h : m ∈ l) :
    seenContains (l.foldl (fun acc c => addSeen acc c.vin) s) m.vin = true := by
  induction l generalizing s with
  | nil => cases h
  | cons x rest ih =>
    rcases List.mem_cons.mp h with rfl | hmem
    · exact foldl_addSeen_mono rest (addSeen s m.vin) m.vin (seenContains_addSeen_self s m.vin)
    · exact ih (addSeen s x.vin) hmem

theorem slookup_foldl_prepend (rn : String) :
    ∀ (orders : List OrderSummary) (f : OrderSummary → OrderEntry) (m : SnapMap),
      (∀ o ∈ orders, o.referenceNumber ≠ rn) →
      slookup (orders.foldl (fun acc o => (o.referenceNumber, f o) :: acc) m) rn
        = slookup m rn
  | [], _, _, _ => rfl
  | o :: rest, f, m, h => by
    have hne : o.referenceNumber ≠ rn := h o (List.mem_cons_self o rest)
    have ih := slookup_foldl_prepend rn rest f ((o.referenceNumber, f o) :: m)
      (fun o' ho' => h o' (List.mem_cons_of_mem o ho'))
    rw [List.foldl_cons, ih]
    simp [slookup, hne]

theorem check_inventory_fresh_hit (cache : Cache) (now : Int) (c : Criteria) (e : CacheEntry)
    (f : FetchOutcome) (hl : slookup cache (cacheKey c) = some e)
    (hfresh : now - e.timestamp < cache_ttl) :
    check_inventory cache now f c = ⟨e.results, cache, false⟩ := by
  simp [check_inventory, hl, hfresh]

theorem check_inventory_miss_success (cache : Cache) (now : Int) (c : Criteria)
    (rs : List Car) (hm : noFreshEntry cache (cacheKey c) now) :
    check_inventory cache now (.success rs) c
      = ⟨rs, (cacheKey c, ⟨now, rs⟩) :: cache, true⟩ := by
  cases hl : slookup cache (cacheKey c) with
  | none => simp [check_inventory, hl]
  | some e =>
    have hstale := hm e hl
    have hcond : ¬ (now - e.timestamp < cache_ttl) := by omega
    simp [check_inventory, hl, hcond]

theorem check_inventory_miss_failure (cache : Cache) (now : Int) (c : Criteria)
    (hm : noFreshEntry cache (cacheKey c) now) :
    check_inventory cache now .failure c = ⟨[], cache, true⟩ := by
  cases hl : slookup cache (cacheKey c) with
  | none => simp [check_inventory, hl]
  | some e =>
    have hstale := hm e hl
    have hcond : ¬ (now - e.timestamp < cache_ttl) := by omega
    simp [check_inventory, hl, hcond]

theorem check_inventory_didFetch_of_miss (cache : Cache) (now : Int) (c : Criteria)
    (f : FetchOutcome) (hm : noFreshEntry cache (cacheKey c) now) :
    (check_inventory cache now f c).didFetch = true := by
  cases f with
  | success rs => rw [check_inventory_miss_success cache now c rs hm]
  | failure => rw [check_inventory_miss_failure cache now c hm]

/-! # Claims -/

/-- C1: the claim says `find_matches` accepts a candidate iff the price gate
passes and each option-code family with at least one requested code is
satisfied by at least one of its requested codes (OR within a family, AND
across families). The code instead requires EVERY requested code to be
present: on the repository's own Test 1 fixture (src/test_logic.py), a watch
requiring the same-family pair `$MTY41`/`$MTY47` (both in the `Other` family
of the `my` table) matches NO candidate, where the grouped semantics —
asserted by the repository's test (`assert len(matches) == 2`) and by the
spec — matches both the `$MTY41` car and the `$MTY47` car. -/
theorem find_matches_flat_and_vs_grouped :
    familyOf "my" "$MTY41" = some "Other" ∧
    familyOf "my" "$MTY47" = some "Other" ∧
    find_matches [car_lr_1, car_lr_2, car_rwd] testOrCriteria = [] ∧
    spec_find_matches [car_lr_1, car_lr_2, car_rwd] testOrCriteria = [car_lr_1, car_lr_2] := by
  decide

/-- C2 counterexample: the claim says a matched candidate lacking a VIN is
notified in EVERY cycle in which it matches, regardless of earlier
notifications. In the code, notifying a VIN-less candidate adds
`car.get('VIN')` = `None` to the seen set, so in the second cycle over the
same unchanged results the same VIN-less candidate still matches but is
suppressed. -/
theorem vinless_candidate_suppressed_second_cycle :
    find_matches [carNV] watchNV = [carNV] ∧
    (invPipeline [] [carNV] watchNV).1 = [carNV] ∧
    (invPipeline (invPipeline [] [carNV] watchNV).2 [carNV] watchNV).1 = [] := by
  decide

/-- C2 amended: a matched candidate lacking a VIN is notified exactly when
the seen set does not yet contain the missing-identifier marker `None`; and
whenever a VIN-less candidate is notified, `None` enters the updated seen set
(so later VIN-less candidates are suppressed, contrary to the original
claim). -/
theorem vinless_dedup_by_none_marker (seen : List (Option String)) (results : List Car)
    (c : Criteria) (car : Car) (hv : car.vin = none) :
    (car ∈ (invPipeline seen results c).1 ↔
      (car ∈ find_matches results c ∧ seenContains seen none = false)) ∧
    (car ∈ (invPipeline seen results c).1 →
      seenContains (invPipeline seen results c).2 none = true) := by
  constructor
  · show car ∈ newMatches seen results c ↔ _
    unfold newMatches
    rw [List.mem_filter]
    simp [hv]
  · intro hmem
    have h := foldl_addSeen_mem (newMatches seen results c) seen car hmem
    rw [hv] at h
    exact h

/-- C2 witness: on the concrete VIN-less candidate the amended claim yields a
first-cycle notification and a `None` marker in the updated seen set. -/
theorem vinless_dedup_by_none_marker_witness :
    carNV ∈ (invPipeline [] [carNV] watchNV).1 ∧
    seenContains (invPipeline [] [carNV] watchNV).2 none = true := by
  have h := vinless_dedup_by_none_marker [] [carNV] watchNV carNV rfl
  have hmem : carNV ∈ (invPipeline [] [carNV] watchNV).1 :=
    h.1.mpr ⟨by decide, by decide⟩
  exact ⟨hmem, h.2 hmem⟩

/-- C8: running the match-and-dedup pipeline twice in a row on the same
unchanged upstream result set yields zero new notifications on the second
run, for every watch, seen set and result set. -/
theorem dedup_pipeline_idempotent (seen : List (Option String)) (results : List Car)
    (c : Criteria) :
    (invPipeline (invPipeline seen results c).2 results c).1 = [] := by
  have key : ∀ m ∈ find_matches results c,
      seenContains (updatedSeen seen results c) m.vin = true := by
    intro m hm
    by_cases h : seenContains seen m.vin = true
    · exact foldl_addSeen_mono _ _ _ h
    · have hmem : m ∈ newMatches seen results c := by
        unfold newMatches
        rw [List.mem_filter]
        exact ⟨hm, by simp [h]⟩
      exact foldl_addSeen_mem _ _ _ hmem
  show newMatches (updatedSeen seen results c) results c = []
  unfold newMatches
  rw [List.filter_eq_nil_iff]
  intro m hm
  simp [key m hm]

/-- C9 counterexample: the claim says that for EVERY watch with a price
ceiling set, a candidate priced strictly above the ceiling is rejected. A
ceiling of 0 is a set ceiling, but `if max_price and ...` treats the integer
0 as falsy and disables the gate entirely: the candidate priced 1 > 0 is
accepted. -/
theorem zero_ceiling_disables_price_gate :
    watchZero.price = some 0 ∧ carPrice carP1 = 1 ∧
    find_matches [carP1] watchZero = [carP1] := by
  decide

/-- C9 amended: for every watch whose price ceiling is set to a truthy
(nonzero) value, the price gate of `find_matches` accepts a candidate priced
exactly at the ceiling and rejects one priced strictly above it (inclusive
boundary). -/
theorem price_gate_inclusive_boundary_nonzero (c : Criteria) (p : Int) (car carAbove : Car)
    (hp : c.price = some p) (hp0 : p ≠ 0)
    (heq : carPrice car = p) (habove : p < carPrice carAbove) :
    priceOk c.price (carPrice car) = true ∧ priceOk c.price (carPrice carAbove) = false := by
  constructor
  · rw [hp, heq]
    simp [priceOk]
  · rw [hp]
    simp [priceOk, hp0, habove]

/-- C9 witness: ceiling 50000 — a 50000 candidate passes the gate, a 50001
candidate does not. -/
theorem price_gate_inclusive_boundary_witness :
    priceOk watch50k.price (carPrice { price := some 50000 }) = true ∧
    priceOk watch50k.price (carPrice { price := some 50001 }) = false :=
  price_gate_inclusive_boundary_nonzero watch50k 50000 { price := some 50000 }
    { price := some 50001 } rfl (by decide) (by decide) (by decide)

/-- C10 counterexample: the claim says that for EVERY watch whose ceiling is
set below 999999, a candidate with neither price field is rejected. With the
(set) ceiling 0 < 999999 the falsy 0 disables the gate, so the priceless
candidate is accepted. -/
theorem zero_ceiling_accepts_unknown_price :
    carPrice carU = 999999 ∧ watchZero.price = some 0 ∧ (0 : Int) < 999999 ∧
    find_matches [carU] watchZero = [carU] := by
  decide

/-- C10 amended: a candidate with neither `OnTheRoadPrice` nor `Price` is
assigned the default price 999999; for every watch whose ceiling is set to a
truthy (nonzero) value below 999999 it is rejected by the price gate, while
for a watch with no ceiling (and no required options) it still matches. -/
theorem default_price_999999_behavior (car : Car) (results : List Car) (c1 c2 : Criteria)
    (p : Int) (h1 : car.onTheRoadPrice = none) (h2 : car.price = none)
    (hc1 : c1.price = some p) (hp0 : p ≠ 0) (hlt : p < 999999)
    (hc2p : c2.price = none) (hc2o : c2.options = []) :
    carPrice car = 999999 ∧
    car ∉ find_matches results c1 ∧
    (car ∈ results → car ∈ find_matches results c2) := by
  have hcp : carPrice car = 999999 := by simp [carPrice, h1, h2]
  refine ⟨hcp, ?_, ?_⟩
  · intro hmem
    rw [find_matches, List.mem_filter] at hmem
    have hpass := hmem.2
    rw [hc1, hcp] at hpass
    simp [priceOk, hp0, hlt] at hpass
  · intro hmem
    rw [find_matches, List.mem_filter]
    exact ⟨hmem, by simp [priceOk, optionsOk, hc2p, hc2o]⟩

/-- C10 witness: the priceless candidate is rejected under a 50000 ceiling
and accepted by a watch with no ceiling and no required options. -/
theorem default_price_999999_witness :
    carPrice carU = 999999 ∧
    carU ∉ find_matches [carU] watch50k ∧
    carU ∈ find_matches [carU] watchNV := by
  have h := default_price_999999_behavior carU [carU] watch50k watchNV 50000
    rfl rfl rfl (by decide) (by decide) rfl rfl
  exact ⟨h.1, h.2.1, h.2.2 (by decide)⟩

/-- C6: a cache entry strictly younger than 300s is served without an
upstream fetch; with no servable entry (none, or age ≥ 300) the call fetches,
and a successful fetch overwrites the fingerprint's entry with the new
timestamp and results; hence a second call with the same fingerprint within
the TTL window does not fetch and returns the first call's results, while a
call at or past TTL expiry fetches again. -/
theorem check_inventory_ttl_cache (cache : Cache) (now t2 : Int) (c : Criteria)
    (e : CacheEntry) (rs : List Car) (f f2 : FetchOutcome) :
    (slookup cache (cacheKey c) = some e → now - e.timestamp < cache_ttl →
      check_inventory cache now f c = ⟨e.results, cache, false⟩) ∧
    (noFreshEntry cache (cacheKey c) now →
      (check_inventory cache now f c).didFetch = true ∧
      check_inventory cache now (.success rs) c
        = ⟨rs, (cacheKey c, ⟨now, rs⟩) :: cache, true⟩ ∧
      slookup (check_inventory cache now (.success rs) c).cache (cacheKey c)
        = some ⟨now, rs⟩) ∧
    (noFreshEntry cache (cacheKey c) now → t2 - now < cache_ttl →
      check_inventory (check_inventory cache now (.success rs) c).cache t2 f2 c
        = ⟨rs, (check_inventory cache now (.success rs) c).cache, false⟩) ∧
    (noFreshEntry cache (cacheKey c) now → cache_ttl ≤ t2 - now →
      (check_inventory (check_inventory cache now (.success rs) c).cache t2 f2 c).didFetch
        = true) := by
  refine ⟨?_, ?_, ?_, ?_⟩
  · intro hl hfresh
    exact check_inventory_fresh_hit cache now c e f hl hfresh
  · intro hm
    refine ⟨check_inventory_didFetch_of_miss cache now c f hm,
            check_inventory_miss_success cache now c rs hm, ?_⟩
    rw [check_inventory_miss_success cache now c rs hm]
    simp [slookup]
  · intro hm h2
    rw [check_inventory_miss_success cache now c rs hm]
    exact check_inventory_fresh_hit _ t2 c ⟨now, rs⟩ f2 (by simp [slookup]) (by exact h2)
  · intro hm h3
    rw [check_inventory_miss_success cache now c rs hm]
    apply check_inventory_didFetch_of_miss
    intro e' he'
    simp [slookup] at he'
    rw [← he']
    exact h3

/-- C6 witness: a fresh hit at age 100 serves the cached list without
fetching; from an empty cache the first call fetches and caches, a second
call at age 100 is served from cache, and a call at age 400 fetches again. -/
theorem check_inventory_ttl_witness :
    check_inventory cache0 100 .failure watchNV = ⟨[carU], cache0, false⟩ ∧
    (check_inventory [] 0 .failure watchNV).didFetch = true ∧
    check_inventory [] 0 (.success [carU]) watchNV
      = ⟨[carU], (cacheKey watchNV, ⟨0, [carU]⟩) :: [], true⟩ ∧
    check_inventory (check_inventory [] 0 (.success [carU]) watchNV).cache 100 .failure watchNV
      = ⟨[carU], (check_inventory [] 0 (.success [carU]) watchNV).cache, false⟩ ∧
    (check_inventory (check_inventory [] 0 (.success [carU]) watchNV).cache 400
        .failure watchNV).didFetch = true := by
  have hmiss : noFreshEntry [] (cacheKey watchNV) 0 := by
    intro e he
    simp [slookup] at he
  have hA := (check_inventory_ttl_cache cache0 100 100 watchNV ⟨0, [carU]⟩ [] .failure
    .failure).1 (by decide) (by decide)
  have hB := (check_inventory_ttl_cache [] 0 100 watchNV ⟨0, []⟩ [carU] .failure
    .failure).2.1 hmiss
  have hC := (check_inventory_ttl_cache [] 0 100 watchNV ⟨0, []⟩ [carU] .failure
    .failure).2.2.1 hmiss (by decide)
  have hD := (check_inventory_ttl_cache [] 0 400 watchNV ⟨0, []⟩ [carU] .failure
    .failure).2.2.2 hmiss (by decide)
  exact ⟨hA, hB.1, hB.2.1, hC, hD⟩

/-- C7: when the upstream fetch fails, the call returns the empty list and
leaves the cache exactly as it was (the failure is not cached), so any later
call with the same fingerprint issues the fetch again instead of serving the
failure for the TTL window. -/
theorem check_inventory_failure_not_cached (cache : Cache) (now t2 : Int) (c : Criteria)
    (f2 : FetchOutcome) (hm : noFreshEntry cache (cacheKey c) now) (hle : now ≤ t2) :
    check_inventory cache now .failure c = ⟨[], cache, true⟩ ∧
    (check_inventory cache t2 f2 c).didFetch = true := by
  refine ⟨check_inventory_miss_failure cache now c hm, ?_⟩
  apply check_inventory_didFetch_of_miss
  intro e he
  have := hm e he
  omega

/-- C7 witness: on an empty cache the failing fetch returns `[]`, leaves the
cache empty, and the follow-up call at time 5 fetches again. -/
theorem check_inventory_failure_witness :
    check_inventory [] 0 .failure watchNV = ⟨[], [], true⟩ ∧
    (check_inventory [] 5 .failure watchNV).didFetch = true := by
  exact check_inventory_failure_not_cached [] 0 5 watchNV .failure
    (by intro e he; simp [slookup] at he) (by decide)

/-- C3 counterexample: the claim quantifies over every subscriber with a
stored refresh token; for a subscriber whose access token is absent the code
refreshes once BEFORE the first upstream attempt, and a 401 on that first
attempt triggers a second refresh exchange — such a call performs two
refresh-token exchanges, not exactly one as claimed. -/
theorem double_refresh_when_no_access_token :
    (request env1 stNoAccess).2.refreshCount = 2 ∧
    (request env1 stNoAccess).2.requestsMade = ["newA", "newA"] ∧
    (request env1 stNoAccess).1 = ReqResult.authError := by
  decide

/-- C3 amended: for a subscriber with a stored token pair (refresh AND access
token present), a request whose first upstream attempt (made with the stored
access token) returns 401 performs
exactly one refresh exchange, persists both new tokens into the store, and
retries the original request exactly once with the new access token — the
request log shows exactly the two attempts, so no third request is ever
issued; a 200 retry returns that payload, a 401 retry fails with the
terminal auth error. -/
theorem request_401_refresh_retry_once (env : ClientEnv) (st : ClientState) (u : UserRec)
    (rt t0 : String) (d : TokenData)
    (hu : st.user = some u) (hrt : u.refresh_token = some rt) (hat : u.access_token = some t0)
    (h401 : (env.respFor t0).status = 401) (href : env.refreshResult = .ok d) :
    (request env st).2.refreshCount = st.refreshCount + 1 ∧
    (request env st).2.user
      = some { u with access_token := some d.access_token,
                      refresh_token := some d.refresh_token } ∧
    (request env st).2.requestsMade = st.requestsMade ++ [t0, d.access_token] ∧
    ((env.respFor d.access_token).status = 200 →
      (request env st).1 = .ok (env.respFor d.access_token).body) ∧
    ((env.respFor d.access_token).status = 401 → (request env st).1 = .authError) := by
  have hreq : request env st
      = (finishResp (env.respFor d.access_token),
         { user := some { u with access_token := some d.access_token,
                                 refresh_token := some d.refresh_token },
           requestsMade := st.requestsMade ++ [t0, d.access_token],
           refreshCount := st.refreshCount + 1 }) := by
    simp [request, hu, hrt, hat, issueGet, h401, refreshTokens, href]
  refine ⟨by rw [hreq], by rw [hreq], by rw [hreq], ?_, ?_⟩
  · intro h200
    rw [hreq]
    simp [finishResp, h200]
  · intro h401r
    rw [hreq]
    simp [finishResp, h401r]

/-- C3 witness: in the world `env0` the rejected stored token leads to one
refresh, both new tokens persisted, exactly the two logged attempts and the
200 payload; in the world `env1` (retry also 401) the call ends in the auth
error after the same two attempts. -/
theorem request_401_refresh_retry_once_witness :
    (request env0 st0).1 = ReqResult.ok "payload" ∧
    (request env0 st0).2.refreshCount = 1 ∧
    (request env0 st0).2.user
      = some { access_token := some "newA", refresh_token := some "newR" } ∧
    (request env0 st0).2.requestsMade = ["oldA", "newA"] ∧
    (request env1 st0).1 = ReqResult.authError ∧
    (request env1 st0).2.requestsMade = ["oldA", "newA"] := by
  have h0 := request_401_refresh_retry_once env0 st0
    ⟨some "oldA", some "oldR"⟩ "oldR" "oldA" ⟨"newA", "newR"⟩ rfl rfl rfl (by decide) rfl
  have h1 := request_401_refresh_retry_once env1 st0
    ⟨some "oldA", some "oldR"⟩ "oldR" "oldA" ⟨"newA", "newR"⟩ rfl rfl rfl (by decide) rfl
  refine ⟨h0.2.2.2.1 (by decide), by simpa [st0] using h0.1, by simpa using h0.2.1,
    by simpa [st0] using h0.2.2.1, h1.2.2.2.2 (by decide), by simpa [st0] using h1.2.2.1⟩

/-- If some order in the list has a failing detail fetch, the loop raises
(carrying the notifications already sent). -/
theorem ordersLoop_error_of_fail (detailsFor : String → Except Unit OrderDetails)
    (prev : SnapMap) :
    ∀ (orders : List OrderSummary) (curr : SnapMap) (notifs : List String),
      (∃ o ∈ orders, detailsFor o.referenceNumber = .error ()) →
      ∃ ns, ordersLoop detailsFor prev orders curr notifs = .error ns
  | [], _, _, h => by
    obtain ⟨o, ho, -⟩ := h
    cases ho
  | o :: rest, curr, notifs, h => by
    cases hd : detailsFor o.referenceNumber with
    | error e => exact ⟨notifs, by simp [ordersLoop, hd]⟩
    | ok d =>
      obtain ⟨o', ho', hfail⟩ := h
      rcases List.mem_cons.mp ho' with rfl | hmem
      · rw [hd] at hfail
        cases hfail
      · obtain ⟨ns, hns⟩ := ordersLoop_error_of_fail detailsFor prev rest
          ((o.referenceNumber, ⟨o, d⟩) :: curr)
          (if shouldNotify prev o d then notifs ++ [o.referenceNumber] else notifs)
          ⟨o', hmem, hfail⟩
        exact ⟨ns, by simp [ordersLoop, hd, hns]⟩

/-- C4: if the detail fetch of any order in the current list fails, the
cycle persists nothing — the snapshot after the cycle is exactly the
snapshot before it, including no entries for orders fetched successfully
earlier in the same cycle. -/
theorem order_cycle_aborts_without_persisting (prev : SnapMap) (orders : List OrderSummary)
    (detailsFor : String → Except Unit OrderDetails) (o : OrderSummary)
    (ho : o ∈ orders) (hfail : detailsFor o.referenceNumber = .error ()) :
    (check_orders_task prev (.ok orders) detailsFor).persisted = prev := by
  obtain ⟨ns, hns⟩ := ordersLoop_error_of_fail detailsFor prev orders [] []
    ⟨o, ho, hfail⟩
  simp [check_orders_task, hns]

/-- C4 witness: with RN1 fetching fine and RN2 failing, the snapshot stays
exactly the pre-cycle snapshot (RN1's successful entry is not written). -/
theorem order_cycle_aborts_witness :
    (check_orders_task prevOld (.ok [orderRN1, orderRN2]) detFailRN2).persisted
      = prevOld := by
  exact order_cycle_aborts_without_persisting prevOld [orderRN1, orderRN2] detFailRN2
    orderRN2 (by decide) rfl

/-- When every detail fetch succeeds (with payloads given by `dFor`), the
loop returns the wholesale-rebuilt map and notifies exactly the orders
passing the notify decision. -/
theorem ordersLoop_ok_closed (detailsFor : String → Except Unit OrderDetails)
    (dFor : OrderSummary → OrderDetails) (prev : SnapMap) :
    ∀ (orders : List OrderSummary) (curr : SnapMap) (notifs : List String),
      (∀ o ∈ orders, detailsFor o.referenceNumber = .ok (dFor o)) →
      ordersLoop detailsFor prev orders curr notifs
        = .ok (orders.foldl
                 (fun m o => (o.referenceNumber, ⟨o, dFor o⟩) :: m) curr,
               notifs ++ (orders.filter
                 (fun o => shouldNotify prev o (dFor o))).map
                 (fun o => o.referenceNumber))
  | [], curr, notifs, _ => by simp [ordersLoop]
  | o :: rest, curr, notifs, hall => by
    have hd := hall o (List.mem_cons_self o rest)
    have ih := ordersLoop_ok_closed detailsFor dFor prev rest
      ((o.referenceNumber, ⟨o, dFor o⟩) :: curr)
      (if shouldNotify prev o (dFor o) then notifs ++ [o.referenceNumber] else notifs)
      (fun o' ho' => hall o' (List.mem_cons_of_mem o ho'))
    by_cases hn : shouldNotify prev o (dFor o) = true
    · rw [if_pos hn] at ih
      simp [ordersLoop, hd, hn, ih]
    · rw [if_neg hn] at ih
      simp [ordersLoop, hd, hn, ih]

/-- C5: in a cycle where every detail fetch succeeds, the notified orders are
exactly those that are new (reference number absent from the previous
snapshot) or whose vin or delivery-window display changed — an order with
both fields unchanged is silent — and the persisted snapshot is the map
rebuilt wholesale from the current orders, so an order no longer returned
upstream has no entry (and no notification). -/
theorem order_cycle_notify_iff_and_replace (prev : SnapMap) (orders : List OrderSummary)
    (detailsFor : String → Except Unit OrderDetails)
    (hall : ∀ o ∈ orders, detailsFor o.referenceNumber ≠ .error ()) :
    (check_orders_task prev (.ok orders) detailsFor).notified
      = (orders.filter
          (fun o => shouldNotify prev o (getDetails (detailsFor o.referenceNumber)))).map
          (fun o => o.referenceNumber) ∧
    (check_orders_task prev (.ok orders) detailsFor).persisted
      = orders.foldl
          (fun m o => (o.referenceNumber,
                       ⟨o, getDetails (detailsFor o.referenceNumber)⟩) :: m) [] ∧
    (∀ rn, (∀ o ∈ orders, o.referenceNumber ≠ rn) →
      slookup (check_orders_task prev (.ok orders) detailsFor).persisted rn = none) := by
  have hall2 : ∀ o ∈ orders,
      detailsFor o.referenceNumber
        = .ok (getDetails (detailsFor o.referenceNumber)) := by
    intro o ho
    cases hd : detailsFor o.referenceNumber with
    | error e =>
      cases e
      exact absurd hd (hall o ho)
    | ok d => rfl
  have h := ordersLoop_ok_closed detailsFor
    (fun o => getDetails (detailsFor o.referenceNumber)) prev orders [] [] hall2
  refine ⟨?_, ?_, ?_⟩
  · simp [check_orders_task, h]
  · simp [check_orders_task, h]
  · intro rn hrn
    simp only [check_orders_task, h]
    exact slookup_foldl_prepend rn orders
      (fun o => ⟨o, getDetails (detailsFor o.referenceNumber)⟩) [] hrn

/-- C5 witness: previous snapshot empty, one current order RN1 — RN1 is
notified as new, the snapshot becomes exactly the rebuilt one-entry map, and
a reference number not in the current list has no entry. -/
theorem order_cycle_notify_iff_witness :
    (check_orders_task [] (.ok [orderRN1]) detAllOk).notified = ["RN1"] ∧
    (check_orders_task [] (.ok [orderRN1]) detAllOk).persisted
      = [("RN1", ⟨orderRN1, ⟨none⟩⟩)] ∧
    slookup (check_orders_task [] (.ok [orderRN1]) detAllOk).persisted "OLD" = none := by
  have h := order_cycle_notify_iff_and_replace [] [orderRN1] detAllOk
    (by intro o ho; simp [detAllOk])
  refine ⟨?_, ?_, h.2.2 "OLD" (by decide)⟩
  · rw [h.1]
    decide
  · rw [h.2.1]
    decide
